import Mathlib

/-!
Verification development for the bkpfile single-file backup utility.

The Go sources are shallowly embedded over explicit data:

* Go strings become `GoStr := List Char`; byte slices become `List Nat`.
* Filesystem paths are pre-canonicalized component lists (`FPath := List GoStr`);
  the `filepath.Abs`/`Rel` round trip that `backup.go` applies to an already
  clean relative path is modeled as the identity.
* The filesystem is an explicit state (`FSState`): a list of regular files
  (path, content, mtime) plus a list of existing directories.  `os.Stat`
  succeeds exactly on the recorded files and directories; modification times
  are modeled at minute resolution (`Nat`), the only resolution the program
  observes.
* Failures of `os.MkdirAll`, `CopyFile` and the initial `os.Stat` are injected
  through an `OsEnv` of optional `OsError`s, mirroring the only OS failures
  `CreateBackup` classifies.
-/

/-- Go strings, modeled as lists of characters. -/
abbrev GoStr := List Char

/-- Embeds a Lean string literal into the Go string model. -/
def gs (s : String) : GoStr := s.toList

/-- Model of Go `strings.HasPrefix s pre`. -/
def strStartsWith : GoStr → GoStr → Bool
  | _, [] => true
  | [], _ :: _ => false
  | a :: s, b :: p => a == b && strStartsWith s p

/-- Model of Go `strings.Contains hay pat`. -/
def strContains : GoStr → GoStr → Bool
  | [], pat => pat.isEmpty
  | a :: s, pat => strStartsWith (a :: s) pat || strContains s pat

/-- Model of Go `strings.ToLower` (ASCII casing is all the phrases need). -/
def strToLower (s : GoStr) : GoStr := s.map Char.toLower

/-- Index of the last occurrence of `c`, scanning a list from the front.
Models Go `strings.LastIndex(s, string(c))` (`none` plays the role of `-1`). -/
def lastIndexOfAux (c : Char) : GoStr → Option Nat
  | [] => none
  | a :: s =>
    match lastIndexOfAux c s with
    | some j => some (j + 1)
    | none => if a == c then some 0 else none

/-- Model of Go `strings.LastIndex(s, string(c))`. -/
def lastIndexOf (s : GoStr) (c : Char) : Option Nat := lastIndexOfAux c s

/-- Byte-scanning loop of `CompareFiles` (backup.go lines 454-458): Go walks
index `i` over two equal-length slices and bails out on the first mismatch.
On the equal-length inputs it is invoked with, this structural recursion is
that loop. -/
def scanBytes : List Nat → List Nat → Bool
  | a :: as, b :: bs => a == b && scanBytes as bs
  | _, _ => true

/-- Model of `CompareFiles` (backup.go lines 436-461) after the two reads,
parameterized by the byte-scanning loop so that the length short-circuit is
visibly independent of the scan: lengths are compared first and the content
loop runs only on equal lengths. -/
def CompareFilesWith (scan : List Nat → List Nat → Bool)
    (data1 data2 : List Nat) : Bool :=
  if data1.length ≠ data2.length then false else scan data1 data2

/-- Model of `CompareFiles` on the byte contents of the two files. -/
def CompareFiles (data1 data2 : List Nat) : Bool :=
  CompareFilesWith scanBytes data1 data2

theorem scanBytes_refl (l : List Nat) : scanBytes l l = true := by
  induction l with
  | nil => rfl
  | cons a as ih => simp [scanBytes, ih]

theorem scanBytes_eq_true_iff :
    ∀ l₁ l₂ : List Nat, l₁.length = l₂.length → (scanBytes l₁ l₂ = true ↔ l₁ = l₂) := by
  intro l₁
  induction l₁ with
  | nil =>
    intro l₂ h
    cases l₂ with
    | nil => simp [scanBytes]
    | cons b bs => simp at h
  | cons a as ih =>
    intro l₂ h
    cases l₂ with
    | nil => simp at h
    | cons b bs =>
      simp only [List.length_cons, Nat.succ.injEq] at h
      simp [scanBytes, ih bs h, and_comm]

theorem CompareFiles_eq_true_iff (d₁ d₂ : List Nat) :
    CompareFiles d₁ d₂ = true ↔ d₁ = d₂ := by
  unfold CompareFiles CompareFilesWith
  by_cases h : d₁.length = d₂.length
  · simp [h, scanBytes_eq_true_iff d₁ d₂ h]
  · rw [if_pos h]
    simp only [Bool.false_eq_true, false_iff]
    intro hEq
    exact h (congrArg List.length hEq)

theorem CompareFiles_refl (d : List Nat) : CompareFiles d d = true :=
  (CompareFiles_eq_true_iff d d).mpr rfl

/-- Filesystem paths, as pre-canonicalized component lists. -/
abbrev FPath := List GoStr

/-- Splits a slash-separated Go path string into components; models how
`filepath.Join` interprets `cfg.BackupDirPath` (clean paths assumed). -/
def splitPath (s : GoStr) : FPath :=
  s.splitOn '/'

/-- Model of `filepath.Base` on a component list (callers only apply it to
non-empty relative paths; the empty case never arises for a statted file). -/
def baseName (p : FPath) : GoStr := p.getLast?.getD []

/-- Per-file data: byte content plus modification time (minute resolution). -/
structure FileData where
  content : List Nat
  mtime : Nat
deriving DecidableEq

/-- Explicit filesystem state: regular files and existing directories. -/
structure FSState where
  files : List (FPath × FileData)
  dirs : List FPath
deriving DecidableEq

/-- Model of a successful `os.Stat`: the path is a recorded file or directory. -/
def pathExists (fs : FSState) (p : FPath) : Prop :=
  p ∈ fs.files.map Prod.fst ∨ p ∈ fs.dirs

instance (fs : FSState) (p : FPath) : Decidable (pathExists fs p) := by
  unfold pathExists
  infer_instance

/-- Model of `os.ReadFile` / the file half of `os.Stat`. -/
def lookupFile (fs : FSState) (p : FPath) : Option FileData :=
  (fs.files.find? (fun q => decide (q.1 = p))).map Prod.snd

/-- Directory entries of `d` produced by `os.ReadDir`: name and data of every
recorded regular file lying directly in `d` (directory entries are skipped by
the Go loop and files are the only entries the model records). -/
def entriesIn (fs : FSState) (d : FPath) : List (GoStr × FileData) :=
  fs.files.filterMap fun q =>
    match q.1.getLast? with
    | none => none
    | some n => if q.1.dropLast = d then some (n, q.2) else none

/-- All ancestor paths of `p`, `p` itself included. -/
def pathAncestors : FPath → List FPath
  | [] => [[]]
  | a :: rest => [] :: (pathAncestors rest).map (a :: ·)

/-- Model of `os.MkdirAll`: records the directory and all its ancestors. -/
def mkdirAll (fs : FSState) (p : FPath) : FSState :=
  { fs with dirs := pathAncestors p ++ fs.dirs }

/-- Model of `os.WriteFile` (create or truncate-and-rewrite). -/
def writeFile (fs : FSState) (p : FPath) (fd : FileData) : FSState :=
  { fs with files := (p, fd) :: fs.files.filter (fun q => decide (q.1 ≠ p)) }

/-- Mirror of the Go `BackupError` struct (backup.go lines 16-19). -/
structure BackupError where
  message : GoStr
  statusCode : Int
deriving DecidableEq

/-- Mirror of the Go `Backup` struct (backup.go lines 35-55). -/
structure Backup where
  name : GoStr
  path : FPath
  creationTime : Nat
  sourceFile : FPath
  note : GoStr
deriving DecidableEq

/-- Mirror of the Go `Config` struct (part_009 lines 14-47). -/
structure Config where
  backupDirPath : GoStr
  useCurrentDirName : Bool
  statusCreatedBackup : Int
  statusFailedToCreateBackupDirectory : Int
  statusFileIsIdenticalToExistingBackup : Int
  statusFileNotFound : Int
  statusInvalidFileType : Int
  statusPermissionDenied : Int
  statusDiskFull : Int
  statusConfigError : Int
deriving DecidableEq

/-- Mirror of `DefaultConfig` (part_009 lines 67-80). -/
def DefaultConfig : Config where
  backupDirPath := gs "../.bkpfile"
  useCurrentDirName := true
  statusCreatedBackup := 0
  statusFailedToCreateBackupDirectory := 31
  statusFileIsIdenticalToExistingBackup := 0
  statusFileNotFound := 20
  statusInvalidFileType := 21
  statusPermissionDenied := 22
  statusDiskFull := 30
  statusConfigError := 10

/-- Mirror of `GenerateBackupName` (backup.go lines 59-73); the caller passes
a bare filename, on which `filepath.Base` is the identity. -/
def GenerateBackupName (sourceBase timestamp noteArg : GoStr) : GoStr :=
  let name := sourceBase ++ Char.ofNat 45 :: timestamp
  if noteArg = [] then name else name ++ Char.ofNat 61 :: noteArg

/-- Note extraction of `ListBackups` (backup.go lines 181-183): everything
after the last `=` when one occurs at a positive index. -/
def extractNote (name : GoStr) : GoStr :=
  match lastIndexOf name (Char.ofNat 61) with
  | some idx => if 0 < idx then name.drop (idx + 1) else []
  | none => []

/-- Insertion step of the most-recent-first ordering; `sort.Slice`'s
comparator is `CreationTime.After`, i.e. strictly-greater mtime first. -/
def insertBackup (x : Backup) : List Backup → List Backup
  | [] => [x]
  | y :: ys => if y.creationTime < x.creationTime then x :: y :: ys else y :: insertBackup x ys

/-- Deterministic model of `sort.Slice(backups, most-recent-first)`
(backup.go lines 189-191). -/
def sortBackups : List Backup → List Backup
  | [] => []
  | x :: xs => insertBackup x (sortBackups xs)

/-- Mirror of `ListBackups` (backup.go lines 114-194).  The error type is kept
even though the modeled syscalls are total, so the missing-directory paths are
visibly the non-error returns they are in the source. -/
def ListBackups (fs : FSState) (backupDir : FPath) (sourceFile : FPath) :
    Except GoStr (List Backup) :=
  if ¬ pathExists fs backupDir then .ok []
  else
    let dir := sourceFile.dropLast
    let filename := baseName sourceFile
    let backupSubDir := backupDir ++ dir
    if ¬ pathExists fs backupSubDir then .ok []
    else
      let matching := (entriesIn fs backupSubDir).filterMap fun e =>
        if strStartsWith e.1 (filename ++ [Char.ofNat 45]) then
          some { name := e.1
                 path := backupSubDir ++ [e.1]
                 creationTime := e.2.mtime
                 sourceFile := sourceFile
                 note := extractNote e.1 : Backup }
        else none
      .ok (sortBackups matching)

/-- Injected OS failures, split as the Go error predicates split them. -/
inductive OsError where
  | permission (msg : GoStr)
  | other (msg : GoStr)
deriving DecidableEq

/-- Message carried by an injected failure (Go `err.Error()`). -/
def OsError.msg : OsError → GoStr
  | .permission m => m
  | .other m => m

/-- Environment of injectable OS failures for one `CreateBackup` run. -/
structure OsEnv where
  statErr : Option OsError
  mkdirErr : Option OsError
  copyErr : Option OsError

/-- Disk-full test actually performed by `CreateBackup` (backup.go lines 287
and 299): a case-sensitive substring match against exactly two phrases. -/
def isDiskFullMsg (m : GoStr) : Bool :=
  strContains m (gs "no space left") || strContains m (gs "disk full")

/-- Error classification of the `os.MkdirAll` failure branch of
`CreateBackup` (backup.go lines 282-291). -/
def classifyMkdirError (cfg : Config) (e : OsError) : BackupError :=
  match e with
  | .permission m =>
    ⟨gs "permission denied creating backup directory: " ++ m, cfg.statusPermissionDenied⟩
  | .other m =>
    if isDiskFullMsg m then ⟨gs "disk full: " ++ m, cfg.statusDiskFull⟩
    else ⟨gs "failed to create backup directory: " ++ m,
          cfg.statusFailedToCreateBackupDirectory⟩

/-- Error classification of the `CopyFile` failure branch of `CreateBackup`
(backup.go lines 294-303). -/
def classifyCopyError (cfg : Config) (e : OsError) : BackupError :=
  match e with
  | .permission m =>
    ⟨gs "permission denied copying file: " ++ m, cfg.statusPermissionDenied⟩
  | .other m =>
    if isDiskFullMsg m then ⟨gs "disk full: " ++ m, cfg.statusDiskFull⟩
    else ⟨gs "failed to create backup: " ++ m, cfg.statusConfigError⟩

/-- Decimal digit character for `d % 10`. -/
def digitCharOf : Nat → Char
  | 0 => Char.ofNat 48
  | 1 => Char.ofNat 49
  | 2 => Char.ofNat 50
  | 3 => Char.ofNat 51
  | 4 => Char.ofNat 52
  | 5 => Char.ofNat 53
  | 6 => Char.ofNat 54
  | 7 => Char.ofNat 55
  | 8 => Char.ofNat 56
  | _ => Char.ofNat 57

/-- Fuel-driven decimal rendering of a natural number. -/
def natDigitsAux : Nat → Nat → GoStr
  | 0, _ => []
  | fuel + 1, n =>
    if n < 10 then [digitCharOf n]
    else natDigitsAux fuel (n / 10) ++ [digitCharOf (n % 10)]

/-- Rendering of the injected time (a minute count) as the backup-name
timestamp; models `now().Format("2006-01-02-15-04")`, whose output determines
and is determined by the wall-clock minute. -/
def minuteStamp (now : Nat) : GoStr := natDigitsAux (now + 1) now

/-- Mirror of `CreateBackup`/`CreateBackupWithTime` (backup.go lines 196-313
and 317-432; the two bodies are identical except for the time source, which is
the explicit `now` here).  Returns the final filesystem plus the Go `error`
result, `some` a `BackupError` on every return path of the source. -/
def CreateBackup (cfg : Config) (fs : FSState) (env : OsEnv) (filePath : FPath)
    (noteArg : GoStr) (dryRun : Bool) (now : Nat) : FSState × Option BackupError :=
  match env.statErr with
  | some (.permission _) =>
    (fs, some ⟨gs "permission denied: " ++ baseName filePath, cfg.statusPermissionDenied⟩)
  | some (.other m) =>
    (fs, some ⟨gs "failed to get file info: " ++ m, cfg.statusConfigError⟩)
  | none =>
    match lookupFile fs filePath with
    | none =>
      if filePath ∈ fs.dirs then
        (fs, some ⟨gs "not a regular file: " ++ baseName filePath, cfg.statusInvalidFileType⟩)
      else
        (fs, some ⟨gs "file not found: " ++ baseName filePath, cfg.statusFileNotFound⟩)
    | some fd =>
      let dir := filePath.dropLast
      let backupDir := splitPath cfg.backupDirPath
      match ListBackups fs backupDir filePath with
      | .error m =>
        (fs, some ⟨gs "failed to list existing backups: " ++ m, cfg.statusConfigError⟩)
      | .ok backups =>
        let identicalStop : Option BackupError :=
          match backups with
          | [] => none
          | mostRecent :: _ =>
            match lookupFile fs mostRecent.path with
            | none => some ⟨gs "failed to compare files", cfg.statusConfigError⟩
            | some bd =>
              if CompareFiles fd.content bd.content then
                some ⟨gs "file is identical to existing backup",
                      cfg.statusFileIsIdenticalToExistingBackup⟩
              else none
        match identicalStop with
        | some e => (fs, some e)
        | none =>
          let filename := baseName filePath
          let timestamp := minuteStamp now
          let backupName := GenerateBackupName filename timestamp noteArg
          let backupSubDir := backupDir ++ dir
          let backupPath := backupSubDir ++ [backupName]
          if dryRun then
            (fs, some ⟨gs "dry run completed", cfg.statusCreatedBackup⟩)
          else
            match env.mkdirErr with
            | some e => (fs, some (classifyMkdirError cfg e))
            | none =>
              let fs₁ := mkdirAll fs backupSubDir
              match env.copyErr with
              | some e => (fs₁, some (classifyCopyError cfg e))
              | none =>
                let fs₂ := writeFile fs₁ backupPath ⟨fd.content, fd.mtime⟩
                (fs₂, some ⟨gs "backup created successfully", cfg.statusCreatedBackup⟩)

/-- Complete decimal rendering of a natural number. -/
def natDigits (n : Nat) : GoStr := natDigitsAux (n + 1) n

/-- Model of Go `fmt.Sprintf("%d", i)`. -/
def intStr (i : Int) : GoStr :=
  if i < 0 then Char.ofNat 45 :: natDigits i.natAbs else natDigits i.toNat

/-- Model of Go `fmt.Sprintf("%t", b)`. -/
def boolStr (b : Bool) : GoStr := if b then gs "true" else gs "false"

/-- Raw-map view of one parsed YAML configuration file: each recognized key is
present (`some`, with the typed value the second unmarshal produced) or absent
(`none`), exactly the presence test `_, exists := yamlData[key]` performs. -/
structure YamlDoc where
  backup_dir_path : Option GoStr
  use_current_dir_name : Option Bool
  status_created_backup : Option Int
  status_failed_to_create_backup_directory : Option Int
  status_file_is_identical_to_existing_backup : Option Int
  status_file_not_found : Option Int
  status_invalid_file_type : Option Int
  status_permission_denied : Option Int
  status_disk_full : Option Int
  status_config_error : Option Int
deriving DecidableEq

/-- Empty document: a present config file that sets no recognized key. -/
def YamlDoc.empty : YamlDoc :=
  ⟨none, none, none, none, none, none, none, none, none, none⟩

/-- Result of reading one candidate config file that exists: either the YAML
fails to unmarshal, or it parses into a raw-map/typed-struct pair. -/
inductive ConfigFile where
  | malformed
  | parsed (y : YamlDoc)
deriving DecidableEq

/-- Home expansion applied to a `backup_dir_path` value (part_009 lines
280-285): `~/`-prefixed values are joined onto the home directory when the
lookup succeeds and are left unexpanded otherwise. -/
def expandHome (homeDir : Option GoStr) (v : GoStr) : GoStr :=
  if strStartsWith v (gs "~/") then
    match homeDir with
    | some h => h ++ Char.ofNat 47 :: v.drop 2
    | none => v
  else v

/-- Merge block of `LoadConfig` for one consumed file (part_009 lines
276-318): every recognized key present in the raw map overwrites its field,
except `backup_dir_path`, which additionally requires a non-empty typed value
and is stored home-expanded.  The Go block is a sequence of independent
single-field `if exists` guards, rendered here field by field. -/
def applyYaml (homeDir : Option GoStr) (cfg : Config) (y : YamlDoc) : Config where
  backupDirPath :=
    match y.backup_dir_path with
    | some v => if v ≠ [] then expandHome homeDir v else cfg.backupDirPath
    | none => cfg.backupDirPath
  useCurrentDirName := y.use_current_dir_name.getD cfg.useCurrentDirName
  statusCreatedBackup := y.status_created_backup.getD cfg.statusCreatedBackup
  statusFailedToCreateBackupDirectory :=
    y.status_failed_to_create_backup_directory.getD cfg.statusFailedToCreateBackupDirectory
  statusFileIsIdenticalToExistingBackup :=
    y.status_file_is_identical_to_existing_backup.getD cfg.statusFileIsIdenticalToExistingBackup
  statusFileNotFound := y.status_file_not_found.getD cfg.statusFileNotFound
  statusInvalidFileType := y.status_invalid_file_type.getD cfg.statusInvalidFileType
  statusPermissionDenied := y.status_permission_denied.getD cfg.statusPermissionDenied
  statusDiskFull := y.status_disk_full.getD cfg.statusDiskFull
  statusConfigError := y.status_config_error.getD cfg.statusConfigError

/-- Search-path walk of `LoadConfig` (part_009 lines 244-324): missing files
are skipped, every existing file is read and parsed (a parse failure aborts
the whole load even after a file has been consumed), and only the first
existing file merges its fields; `found` is the Go `foundConfig` flag. -/
def loadLoop (fileAt : GoStr → Option ConfigFile) (homeDir : Option GoStr) :
    List GoStr → Config → Bool → Except GoStr (Config × Bool)
  | [], cfg, found => .ok (cfg, found)
  | p :: rest, cfg, found =>
    match fileAt p with
    | none => loadLoop fileAt homeDir rest cfg found
    | some .malformed => .error (gs "failed to parse config file: " ++ p)
    | some (.parsed y) =>
      if found then loadLoop fileAt homeDir rest cfg found
      else loadLoop fileAt homeDir rest (applyYaml homeDir cfg y) true

/-- Mirror of `LoadConfig` (part_009 lines 238-394).  `fileAt` models the
stat/read/parse of each search-path candidate (already resolved against the
root), and `rootFile` the legacy `.bkpfile.yml` fallback tried only when no
search-path file was consumed. -/
def LoadConfig (searchPaths : List GoStr) (fileAt : GoStr → Option ConfigFile)
    (rootFile : Option ConfigFile) (homeDir : Option GoStr) : Except GoStr Config :=
  match loadLoop fileAt homeDir searchPaths DefaultConfig false with
  | .error e => .error e
  | .ok (cfg, found) =>
    if found then .ok cfg
    else
      match rootFile with
      | none => .ok cfg
      | some .malformed => .error (gs "failed to parse config file: .bkpfile.yml")
      | some (.parsed y) => .ok (applyYaml homeDir cfg y)

/-- Mirror of the Go `ConfigValue` struct (part_009 lines 51-63). -/
structure ConfigValue where
  name : GoStr
  value : GoStr
  source : GoStr
deriving DecidableEq

/-- Value and source of one tracked field of the `DisplayConfig` trace. -/
structure TraceEntry where
  value : GoStr
  source : GoStr
deriving DecidableEq

/-- Update of one tracked field for one processed file (part_009 lines
179-225): when the file mentions the field, the entry is overwritten only
while its source is still `"default"`. -/
def stepEntry (cur : TraceEntry) (mention : Option GoStr) (p : GoStr) : TraceEntry :=
  match mention with
  | some v => if cur.source = gs "default" then ⟨v, p⟩ else cur
  | none => cur

/-- The ten tracked `ConfigValue` slots of `DisplayConfig`, keyed statically
by their fixed names (the Go code keeps them in a list and locates each by
`findConfigValueIndex`; the names never change, so the lookup is static). -/
structure TraceState where
  backup_dir_path : TraceEntry
  status_config_error : TraceEntry
  status_created_backup : TraceEntry
  status_disk_full : TraceEntry
  status_failed_to_create_backup_directory : TraceEntry
  status_file_is_identical_to_existing_backup : TraceEntry
  status_file_not_found : TraceEntry
  status_invalid_file_type : TraceEntry
  status_permission_denied : TraceEntry
  use_current_dir_name : TraceEntry
deriving DecidableEq

/-- Mention of `backup_dir_path` by a file, as `DisplayConfig` tests it
(part_009 lines 179-192): key present and typed value non-empty, recorded
home-expanded. -/
def traceMentionBdp (homeDir : Option GoStr) (y : YamlDoc) : Option GoStr :=
  match y.backup_dir_path with
  | some v => if v ≠ [] then some (expandHome homeDir v) else none
  | none => none

/-- Mention of `use_current_dir_name` by a file (part_009 lines 194-200). -/
def traceMentionUcdn (y : YamlDoc) : Option GoStr :=
  y.use_current_dir_name.map boolStr

/-- Mention of one status field by a file (part_009 lines 202-225). -/
def traceMentionStatus (get : YamlDoc → Option Int) (y : YamlDoc) : Option GoStr :=
  (get y).map intStr

/-- Processing of one parsed file by `DisplayConfig` (part_009 lines
178-225), field by field. -/
def traceFile (homeDir : Option GoStr) (st : TraceState) (p : GoStr) (y : YamlDoc) :
    TraceState where
  backup_dir_path := stepEntry st.backup_dir_path (traceMentionBdp homeDir y) p
  status_config_error :=
    stepEntry st.status_config_error (traceMentionStatus (·.status_config_error) y) p
  status_created_backup :=
    stepEntry st.status_created_backup (traceMentionStatus (·.status_created_backup) y) p
  status_disk_full :=
    stepEntry st.status_disk_full (traceMentionStatus (·.status_disk_full) y) p
  status_failed_to_create_backup_directory :=
    stepEntry st.status_failed_to_create_backup_directory
      (traceMentionStatus (·.status_failed_to_create_backup_directory) y) p
  status_file_is_identical_to_existing_backup :=
    stepEntry st.status_file_is_identical_to_existing_backup
      (traceMentionStatus (·.status_file_is_identical_to_existing_backup) y) p
  status_file_not_found :=
    stepEntry st.status_file_not_found (traceMentionStatus (·.status_file_not_found) y) p
  status_invalid_file_type :=
    stepEntry st.status_invalid_file_type (traceMentionStatus (·.status_invalid_file_type) y) p
  status_permission_denied :=
    stepEntry st.status_permission_denied (traceMentionStatus (·.status_permission_denied) y) p
  use_current_dir_name := stepEntry st.use_current_dir_name (traceMentionUcdn y) p

/-- File walk of `DisplayConfig` (part_009 lines 142-226): every existing
file in the search path is read and parsed (a parse failure aborts the whole
display), and each parsed file is processed in order. -/
def traceLoop (fileAt : GoStr → Option ConfigFile) (homeDir : Option GoStr) :
    List GoStr → TraceState → Except GoStr TraceState
  | [], st => .ok st
  | p :: rest, st =>
    match fileAt p with
    | none => traceLoop fileAt homeDir rest st
    | some .malformed => .error (gs "failed to parse config file: " ++ p)
    | some (.parsed y) => traceLoop fileAt homeDir rest (traceFile homeDir st p y)

/-- Initial trace state (part_009 lines 127-139): every field starts at its
default value with source `"default"`. -/
def initTraceState : TraceState where
  backup_dir_path := ⟨DefaultConfig.backupDirPath, gs "default"⟩
  status_config_error := ⟨intStr DefaultConfig.statusConfigError, gs "default"⟩
  status_created_backup := ⟨intStr DefaultConfig.statusCreatedBackup, gs "default"⟩
  status_disk_full := ⟨intStr DefaultConfig.statusDiskFull, gs "default"⟩
  status_failed_to_create_backup_directory :=
    ⟨intStr DefaultConfig.statusFailedToCreateBackupDirectory, gs "default"⟩
  status_file_is_identical_to_existing_backup :=
    ⟨intStr DefaultConfig.statusFileIsIdenticalToExistingBackup, gs "default"⟩
  status_file_not_found := ⟨intStr DefaultConfig.statusFileNotFound, gs "default"⟩
  status_invalid_file_type := ⟨intStr DefaultConfig.statusInvalidFileType, gs "default"⟩
  status_permission_denied := ⟨intStr DefaultConfig.statusPermissionDenied, gs "default"⟩
  use_current_dir_name := ⟨boolStr DefaultConfig.useCurrentDirName, gs "default"⟩

/-- Rendering of the trace in the fixed display order of part_009 lines
128-139 (alphabetical by field name). -/
def traceStateToList (st : TraceState) : List ConfigValue :=
  [⟨gs "backup_dir_path", st.backup_dir_path.value, st.backup_dir_path.source⟩,
   ⟨gs "status_config_error", st.status_config_error.value, st.status_config_error.source⟩,
   ⟨gs "status_created_backup", st.status_created_backup.value, st.status_created_backup.source⟩,
   ⟨gs "status_disk_full", st.status_disk_full.value, st.status_disk_full.source⟩,
   ⟨gs "status_failed_to_create_backup_directory",
    st.status_failed_to_create_backup_directory.value,
    st.status_failed_to_create_backup_directory.source⟩,
   ⟨gs "status_file_is_identical_to_existing_backup",
    st.status_file_is_identical_to_existing_backup.value,
    st.status_file_is_identical_to_existing_backup.source⟩,
   ⟨gs "status_file_not_found", st.status_file_not_found.value, st.status_file_not_found.source⟩,
   ⟨gs "status_invalid_file_type", st.status_invalid_file_type.value,
    st.status_invalid_file_type.source⟩,
   ⟨gs "status_permission_denied", st.status_permission_denied.value,
    st.status_permission_denied.source⟩,
   ⟨gs "use_current_dir_name", st.use_current_dir_name.value, st.use_current_dir_name.source⟩]

/-- Mirror of `DisplayConfig` (part_009 lines 122-234), returning the
computed trace instead of printing it (the `./` re-prefixing of relative
source paths is orthogonal display decoration and the path tokens are used
as given). -/
def DisplayConfig (searchPaths : List GoStr) (fileAt : GoStr → Option ConfigFile)
    (homeDir : Option GoStr) : Except GoStr (List ConfigValue) :=
  (traceLoop fileAt homeDir searchPaths initTraceState).map traceStateToList

/-- Modelled from the spec: the seven-phrase, case-insensitive disk-space
matcher `isDiskSpaceError` of spec section 4.5 (the richer matcher that
docs/requirements.md also documents as `isDiskFullError`); no function of
this shape exists under src/, whose `CreateBackup` matches only the two
phrases of `isDiskFullMsg`, case-sensitively. -/
def isDiskSpaceErrorSpec (m : GoStr) : Bool :=
  let lower := strToLower m
  [gs "no space left", gs "disk full", gs "not enough space",
   gs "insufficient disk space", gs "device full", gs "quota exceeded",
   gs "file too large"].any fun phrase => strContains lower phrase

/-- C7: `CompareFiles` returns true exactly on equal byte contents, two
empty files compare as identical, and whenever the lengths differ the result
is false for every byte-scanning loop whatsoever, i.e. without consulting the
content bytes. -/
theorem compareFiles_equality_decision :
    (∀ d₁ d₂ : List Nat, CompareFiles d₁ d₂ = true ↔ d₁ = d₂)
    ∧ CompareFiles [] [] = true
    ∧ (∀ (scan : List Nat → List Nat → Bool) (d₁ d₂ : List Nat),
        d₁.length ≠ d₂.length → CompareFilesWith scan d₁ d₂ = false) := by
  refine ⟨CompareFiles_eq_true_iff, CompareFiles_refl [], ?_⟩
  intro scan d₁ d₂ h
  simp [CompareFilesWith, h]

/-- Witness for C7 at concrete inputs of differing length. -/
theorem compareFiles_equality_decision_witness :
    CompareFilesWith (fun _ _ => true) [0] [] = false :=
  compareFiles_equality_decision.2.2 (fun _ _ => true) [0] [] (by decide)

/-- C6: the disk-full classification of `CreateBackup` evaluated at the
documented indicator phrase "quota exceeded" and at an uppercase variant of
"no space left": the code buckets the former into DirCreateFailed and the
latter into ConfigError because it matches only two phrases, case
sensitively, while the seven-phrase case-insensitive matcher the claim (and
docs/requirements.md) describes accepts both. -/
theorem diskFull_classification_misses_documented_phrases :
    classifyMkdirError DefaultConfig (.other (gs "quota exceeded"))
      = ⟨gs "failed to create backup directory: " ++ gs "quota exceeded",
         DefaultConfig.statusFailedToCreateBackupDirectory⟩
    ∧ classifyCopyError DefaultConfig (.other (gs "No Space Left on device"))
      = ⟨gs "failed to create backup: " ++ gs "No Space Left on device",
         DefaultConfig.statusConfigError⟩
    ∧ isDiskSpaceErrorSpec (gs "quota exceeded") = true
    ∧ isDiskSpaceErrorSpec (gs "No Space Left on device") = true := by
  decide

/-- C9: `ListBackups` on a backup root that does not exist, or whose per-file
backup subdirectory does not exist, returns an empty list and no error. -/
theorem listBackups_missing_root_empty
    (fs : FSState) (backupDir sourceFile : FPath) :
    (¬ pathExists fs backupDir → ListBackups fs backupDir sourceFile = .ok [])
    ∧ (¬ pathExists fs (backupDir ++ sourceFile.dropLast) →
        ListBackups fs backupDir sourceFile = .ok []) := by
  constructor
  · intro h
    simp [ListBackups, h]
  · intro h
    by_cases hroot : pathExists fs backupDir
    · simp [ListBackups, hroot, h]
    · simp [ListBackups, hroot]

/-- Witness for C9: an empty filesystem has neither the root nor the
subdirectory. -/
theorem listBackups_missing_root_empty_witness :
    ListBackups ⟨[], []⟩ [gs "bk"] [gs "a.txt"] = .ok [] :=
  (listBackups_missing_root_empty ⟨[], []⟩ [gs "bk"] [gs "a.txt"]).1 (by decide)

/-- C10: `CreateBackup` returns `some` `BackupError` (carrying a status code)
on every input — successful creation, dry run and the identical-content case
included — never the Go `nil`. -/
theorem createBackup_never_nil
    (cfg : Config) (fs : FSState) (env : OsEnv) (filePath : FPath)
    (noteArg : GoStr) (dryRun : Bool) (now : Nat) :
    ∃ e : BackupError, (CreateBackup cfg fs env filePath noteArg dryRun now).2 = some e := by
  obtain ⟨statErr, mkdirErr, copyErr⟩ := env
  unfold CreateBackup
  repeat' first
    | exact ⟨_, rfl⟩
    | split
    | dsimp only

/-- C8: in `CreateBackup`, a directory-creation failure that is neither a
permission nor a disk-space-indicator error lands in the
`StatusFailedToCreateBackupDirectory` bucket, while the analogous file-copy
failure lands in the `StatusConfigError` bucket. -/
theorem createBackup_failure_buckets_asymmetric
    (cfg : Config) (fs : FSState) (filePath : FPath) (noteArg : GoStr)
    (now : Nat) (fd : FileData) (m : GoStr)
    (hfile : lookupFile fs filePath = some fd)
    (hnone : ListBackups fs (splitPath cfg.backupDirPath) filePath = .ok [])
    (hnm : isDiskFullMsg m = false) :
    (CreateBackup cfg fs ⟨none, some (.other m), none⟩ filePath noteArg false now).2
      = some ⟨gs "failed to create backup directory: " ++ m,
              cfg.statusFailedToCreateBackupDirectory⟩
    ∧ (CreateBackup cfg fs ⟨none, none, some (.other m)⟩ filePath noteArg false now).2
      = some ⟨gs "failed to create backup: " ++ m, cfg.statusConfigError⟩ := by
  constructor <;>
    simp [CreateBackup, hfile, hnone, classifyMkdirError, classifyCopyError, hnm]

/-- Witness for C8 on a one-file filesystem with a non-matching message. -/
theorem createBackup_failure_buckets_asymmetric_witness :
    (CreateBackup DefaultConfig ⟨[([gs "f.txt"], ⟨[1], 5⟩)], []⟩
        ⟨none, some (.other (gs "boom")), none⟩ [gs "f.txt"] [] false 7).2
      = some ⟨gs "failed to create backup directory: " ++ gs "boom",
              DefaultConfig.statusFailedToCreateBackupDirectory⟩
    ∧ (CreateBackup DefaultConfig ⟨[([gs "f.txt"], ⟨[1], 5⟩)], []⟩
        ⟨none, none, some (.other (gs "boom"))⟩ [gs "f.txt"] [] false 7).2
      = some ⟨gs "failed to create backup: " ++ gs "boom",
              DefaultConfig.statusConfigError⟩ :=
  createBackup_failure_buckets_asymmetric DefaultConfig ⟨[([gs "f.txt"], ⟨[1], 5⟩)], []⟩
    [gs "f.txt"] [] 7 ⟨[1], 5⟩ (gs "boom") (by decide) rfl (by decide)

theorem loadLoop_skip_missing (fileAt : GoStr → Option ConfigFile)
    (homeDir : Option GoStr) (pre l : List GoStr) (cfg : Config) (found : Bool)
    (hpre : ∀ q ∈ pre, fileAt q = none) :
    loadLoop fileAt homeDir (pre ++ l) cfg found = loadLoop fileAt homeDir l cfg found := by
  induction pre with
  | nil => rfl
  | cons p ps ih =>
    have hp : fileAt p = none := hpre p (List.mem_cons_self p ps)
    simp only [List.cons_append, loadLoop, hp]
    exact ih fun q hq => hpre q (List.mem_cons_of_mem p hq)

theorem loadLoop_found_fixed (fileAt : GoStr → Option ConfigFile)
    (homeDir : Option GoStr) (l : List GoStr) (cfg : Config)
    (hl : ∀ q ∈ l, fileAt q ≠ some .malformed) :
    loadLoop fileAt homeDir l cfg true = .ok (cfg, true) := by
  induction l with
  | nil => rfl
  | cons p ps ih =>
    have hp : fileAt p ≠ some .malformed := hl p (List.mem_cons_self p ps)
    have ihr := ih fun q hq => hl q (List.mem_cons_of_mem p hq)
    cases hcase : fileAt p with
    | none => simpa only [loadLoop, hcase] using ihr
    | some file =>
      cases file with
      | malformed => exact absurd hcase hp
      | parsed y => simpa only [loadLoop, hcase, if_true] using ihr

/-- Evaluation of `LoadConfig` when the first existing search-path candidate
is `p`, holding document `y`, and every later existing candidate parses: the
result merges exactly `y` over the defaults and consults the legacy fallback
not at all. -/
theorem loadConfig_eval (searchPaths pre rest : List GoStr) (p : GoStr)
    (fileAt : GoStr → Option ConfigFile) (rootFile : Option ConfigFile)
    (homeDir : Option GoStr) (y : YamlDoc)
    (hsp : searchPaths = pre ++ p :: rest)
    (hpre : ∀ q ∈ pre, fileAt q = none)
    (hp : fileAt p = some (.parsed y))
    (hrest : ∀ q ∈ rest, fileAt q ≠ some .malformed) :
    LoadConfig searchPaths fileAt rootFile homeDir
      = .ok (applyYaml homeDir DefaultConfig y) := by
  unfold LoadConfig
  rw [hsp, loadLoop_skip_missing fileAt homeDir pre (p :: rest) DefaultConfig false hpre]
  simp only [loadLoop, hp]
  rw [if_neg (by simp)]
  rw [loadLoop_found_fixed fileAt homeDir rest (applyYaml homeDir DefaultConfig y) hrest]
  rfl

/-- C2 counterexample: a config file whose `backup_dir_path` key is present
with an explicit empty-string value does not hand that value to the returned
`Config` — the hard-coded default survives — refuting "every recognized field
whose key is present in F takes F's value". -/
theorem loadConfig_present_key_not_always_taken :
    LoadConfig [gs "a.yml"]
      (fun q => if q = gs "a.yml" then
          some (.parsed ⟨some [], none, none, none, none, none, none, none, none, none⟩)
        else none)
      none none = .ok DefaultConfig
    ∧ DefaultConfig.backupDirPath ≠ [] := by
  constructor
  · rfl
  · decide

/-- C2 (amended): the first existing, successfully parsed file F in the
search path determines every recognized field whose key F's raw map contains
— except `backup_dir_path`, which is honored only when its typed value is
non-empty and is stored home-expanded — every field F does not mention keeps
its hard-coded default, and no field of any later file is merged (later files
are still parse-checked, which the hypothesis on `rest` reflects). -/
theorem loadConfig_first_file_wins (searchPaths pre rest : List GoStr) (p : GoStr)
    (fileAt : GoStr → Option ConfigFile) (rootFile : Option ConfigFile)
    (homeDir : Option GoStr) (y : YamlDoc)
    (hsp : searchPaths = pre ++ p :: rest)
    (hpre : ∀ q ∈ pre, fileAt q = none)
    (hp : fileAt p = some (.parsed y))
    (hrest : ∀ q ∈ rest, fileAt q ≠ some .malformed) :
    LoadConfig searchPaths fileAt rootFile homeDir
      = .ok (applyYaml homeDir DefaultConfig y)
    ∧ (∀ v, y.backup_dir_path = some v → v ≠ [] →
        (applyYaml homeDir DefaultConfig y).backupDirPath = expandHome homeDir v)
    ∧ (y.backup_dir_path = none ∨ y.backup_dir_path = some [] →
        (applyYaml homeDir DefaultConfig y).backupDirPath = DefaultConfig.backupDirPath)
    ∧ (∀ b, y.use_current_dir_name = some b →
        (applyYaml homeDir DefaultConfig y).useCurrentDirName = b)
    ∧ (y.use_current_dir_name = none →
        (applyYaml homeDir DefaultConfig y).useCurrentDirName
          = DefaultConfig.useCurrentDirName)
    ∧ (∀ i, y.status_created_backup = some i →
        (applyYaml homeDir DefaultConfig y).statusCreatedBackup = i)
    ∧ (y.status_created_backup = none →
        (applyYaml homeDir DefaultConfig y).statusCreatedBackup
          = DefaultConfig.statusCreatedBackup)
    ∧ (∀ i, y.status_failed_to_create_backup_directory = some i →
        (applyYaml homeDir DefaultConfig y).statusFailedToCreateBackupDirectory = i)
    ∧ (y.status_failed_to_create_backup_directory = none →
        (applyYaml homeDir DefaultConfig y).statusFailedToCreateBackupDirectory
          = DefaultConfig.statusFailedToCreateBackupDirectory)
    ∧ (∀ i, y.status_file_is_identical_to_existing_backup = some i →
        (applyYaml homeDir DefaultConfig y).statusFileIsIdenticalToExistingBackup = i)
    ∧ (y.status_file_is_identical_to_existing_backup = none →
        (applyYaml homeDir DefaultConfig y).statusFileIsIdenticalToExistingBackup
          = DefaultConfig.statusFileIsIdenticalToExistingBackup)
    ∧ (∀ i, y.status_file_not_found = some i →
        (applyYaml homeDir DefaultConfig y).statusFileNotFound = i)
    ∧ (y.status_file_not_found = none →
        (applyYaml homeDir DefaultConfig y).statusFileNotFound
          = DefaultConfig.statusFileNotFound)
    ∧ (∀ i, y.status_invalid_file_type = some i →
        (applyYaml homeDir DefaultConfig y).statusInvalidFileType = i)
    ∧ (y.status_invalid_file_type = none →
        (applyYaml homeDir DefaultConfig y).statusInvalidFileType
          = DefaultConfig.statusInvalidFileType)
    ∧ (∀ i, y.status_permission_denied = some i →
        (applyYaml homeDir DefaultConfig y).statusPermissionDenied = i)
    ∧ (y.status_permission_denied = none →
        (applyYaml homeDir DefaultConfig y).statusPermissionDenied
          = DefaultConfig.statusPermissionDenied)
    ∧ (∀ i, y.status_disk_full = some i →
        (applyYaml homeDir DefaultConfig y).statusDiskFull = i)
    ∧ (y.status_disk_full = none →
        (applyYaml homeDir DefaultConfig y).statusDiskFull = DefaultConfig.statusDiskFull)
    ∧ (∀ i, y.status_config_error = some i →
        (applyYaml homeDir DefaultConfig y).statusConfigError = i)
    ∧ (y.status_config_error = none →
        (applyYaml homeDir DefaultConfig y).statusConfigError
          = DefaultConfig.statusConfigError) := by
  refine ⟨loadConfig_eval searchPaths pre rest p fileAt rootFile homeDir y hsp hpre hp hrest,
          ?_, ?_, ?_, ?_, ?_, ?_, ?_, ?_, ?_, ?_, ?_, ?_, ?_, ?_, ?_, ?_, ?_, ?_, ?_, ?_⟩
  · intro v hv hne
    simp [applyYaml, hv, hne]
  · rintro (h | h) <;> simp [applyYaml, h]
  · intro b hb
    simp [applyYaml, hb]
  · intro h
    simp [applyYaml, h]
  all_goals first
    | (intro i hi; simp [applyYaml, hi])
    | (intro h; simp [applyYaml, h])

/-- Witness for C2 at a one-file search path whose file sets an explicit
`use_current_dir_name: false`. -/
theorem loadConfig_first_file_wins_witness :
    LoadConfig [gs "a.yml"]
      (fun q => if q = gs "a.yml" then
          some (.parsed ⟨none, some false, none, none, none, none, none, none, none, none⟩)
        else none)
      none none
      = .ok (applyYaml none DefaultConfig
          ⟨none, some false, none, none, none, none, none, none, none, none⟩) :=
  (loadConfig_first_file_wins [gs "a.yml"] [] [] (gs "a.yml")
    (fun q => if q = gs "a.yml" then
        some (.parsed ⟨none, some false, none, none, none, none, none, none, none, none⟩)
      else none)
    none none ⟨none, some false, none, none, none, none, none, none, none, none⟩
    rfl (by simp) (by decide) (by simp)).1

/-- C4 counterexample: two runs over the same two-element search path whose
first (and only existing-and-first) file carries the same document, differing
only in a later file's well-formedness, return different outcomes: the run
whose later file is malformed fails, because `LoadConfig` keeps reading and
parsing the remaining candidates after consuming the first one. -/
theorem loadConfig_later_malformed_changes_outcome :
    LoadConfig [gs "a", gs "b"]
        (fun q => if q = gs "a" then some (.parsed YamlDoc.empty) else none)
        none none
      ≠ LoadConfig [gs "a", gs "b"]
        (fun q => if q = gs "a" then some (.parsed YamlDoc.empty)
          else if q = gs "b" then some .malformed else none)
        none none := by
  have h₁ : LoadConfig [gs "a", gs "b"]
      (fun q => if q = gs "a" then some (.parsed YamlDoc.empty) else none)
      none none = .ok (applyYaml none DefaultConfig YamlDoc.empty) := rfl
  have h₂ : LoadConfig [gs "a", gs "b"]
      (fun q => if q = gs "a" then some (.parsed YamlDoc.empty)
        else if q = gs "b" then some .malformed else none)
      none none = .error (gs "failed to parse config file: " ++ gs "b") := rfl
  rw [h₁, h₂]
  exact fun h => Except.noConfusion h

/-- C4 (amended): once the first existing search-path file has been consumed,
no later file contributes any field and the legacy fallback is skipped — two
runs agreeing on the search path and on the first existing file return the
same `Config` — provided every later existing file still parses, because
later files are still read and parse-checked and a malformed one aborts the
load with an error. -/
theorem loadConfig_first_file_determines_result
    (searchPaths pre rest : List GoStr) (p : GoStr)
    (fileAt₁ fileAt₂ : GoStr → Option ConfigFile)
    (rootFile₁ rootFile₂ : Option ConfigFile)
    (homeDir : Option GoStr) (y : YamlDoc)
    (hsp : searchPaths = pre ++ p :: rest)
    (hpre₁ : ∀ q ∈ pre, fileAt₁ q = none) (hpre₂ : ∀ q ∈ pre, fileAt₂ q = none)
    (hp₁ : fileAt₁ p = some (.parsed y)) (hp₂ : fileAt₂ p = some (.parsed y))
    (hrest₁ : ∀ q ∈ rest, fileAt₁ q ≠ some .malformed)
    (hrest₂ : ∀ q ∈ rest, fileAt₂ q ≠ some .malformed) :
    LoadConfig searchPaths fileAt₁ rootFile₁ homeDir
      = LoadConfig searchPaths fileAt₂ rootFile₂ homeDir := by
  rw [loadConfig_eval searchPaths pre rest p fileAt₁ rootFile₁ homeDir y hsp hpre₁ hp₁ hrest₁,
    loadConfig_eval searchPaths pre rest p fileAt₂ rootFile₂ homeDir y hsp hpre₂ hp₂ hrest₂]

/-- Witness for C4: the later file exists in one run only, but parses, so
both runs return the same configuration. -/
theorem loadConfig_first_file_determines_result_witness :
    LoadConfig [gs "a", gs "b"]
        (fun q => if q = gs "a" then some (.parsed YamlDoc.empty) else none)
        none none
      = LoadConfig [gs "a", gs "b"]
        (fun q => if q = gs "a" then some (.parsed YamlDoc.empty)
          else some (.parsed ⟨some (gs "/elsewhere"), some false, none, none, none, none,
            none, none, none, none⟩))
        (some .malformed) none :=
  loadConfig_first_file_determines_result [gs "a", gs "b"] [] [gs "b"] (gs "a")
    (fun q => if q = gs "a" then some (.parsed YamlDoc.empty) else none)
    (fun q => if q = gs "a" then some (.parsed YamlDoc.empty)
      else some (.parsed ⟨some (gs "/elsewhere"), some false, none, none, none, none,
        none, none, none, none⟩))
    none (some .malformed) none YamlDoc.empty rfl (by simp) (by simp)
    (by decide) (by decide)
    (by intro q hq; simp only [List.mem_singleton] at hq; subst hq; decide)
    (by intro q hq; simp only [List.mem_singleton] at hq; subst hq; decide)

/-- Mention of one tracked field by the candidate at search-path entry `p`:
`none` when the file is missing or malformed or does not claim the field. -/
def mentionAt (fileAt : GoStr → Option ConfigFile) (mf : YamlDoc → Option GoStr)
    (p : GoStr) : Option GoStr :=
  match fileAt p with
  | some (.parsed y) => mf y
  | _ => none

/-- Fold of `stepEntry` for one tracked field over a search path. -/
def entryFold (mention : GoStr → Option GoStr) : TraceEntry → List GoStr → TraceEntry
  | cur, [] => cur
  | cur, p :: rest => entryFold mention (stepEntry cur (mention p) p) rest

/-- First-seen resolution of one tracked field over a search path: value and
source come from the first entry that mentions the field, or stay default. -/
def firstSeen (mention : GoStr → Option GoStr) (dflt : GoStr) : List GoStr → TraceEntry
  | [] => ⟨dflt, gs "default"⟩
  | p :: rest =>
    match mention p with
    | some v => ⟨v, p⟩
    | none => firstSeen mention dflt rest

/-- Error-free functional view of the `DisplayConfig` file walk. -/
def runTraceAux (fileAt : GoStr → Option ConfigFile) (homeDir : Option GoStr) :
    List GoStr → TraceState → TraceState
  | [], st => st
  | p :: rest, st =>
    match fileAt p with
    | some (.parsed y) => runTraceAux fileAt homeDir rest (traceFile homeDir st p y)
    | _ => runTraceAux fileAt homeDir rest st

theorem stepEntry_locked (cur : TraceEntry) (m : Option GoStr) (p : GoStr)
    (h : cur.source ≠ gs "default") : stepEntry cur m p = cur := by
  cases m with
  | none => rfl
  | some v => simp [stepEntry, h]

theorem entryFold_locked (mention : GoStr → Option GoStr) (cur : TraceEntry)
    (h : cur.source ≠ gs "default") :
    ∀ l, entryFold mention cur l = cur := by
  intro l
  induction l with
  | nil => rfl
  | cons p rest ih =>
    rw [entryFold, stepEntry_locked cur _ p h]
    exact ih

theorem entryFold_from_default (mention : GoStr → Option GoStr) (d : GoStr) :
    ∀ l, (∀ p ∈ l, p ≠ gs "default") →
      entryFold mention ⟨d, gs "default"⟩ l = firstSeen mention d l := by
  intro l
  induction l with
  | nil => intro _; rfl
  | cons p rest ih =>
    intro hnd
    have hp : p ≠ gs "default" := hnd p (List.mem_cons_self p rest)
    rw [entryFold, firstSeen]
    cases hm : mention p with
    | none =>
      exact ih fun q hq => hnd q (List.mem_cons_of_mem p hq)
    | some v =>
      have hs : stepEntry ⟨d, gs "default"⟩ (some v) p = ⟨v, p⟩ := by simp [stepEntry]
      rw [hs]
      exact entryFold_locked mention ⟨v, p⟩ hp rest

theorem traceLoop_eq_run (fileAt : GoStr → Option ConfigFile) (homeDir : Option GoStr) :
    ∀ (l : List GoStr) (st : TraceState), (∀ q ∈ l, fileAt q ≠ some .malformed) →
      traceLoop fileAt homeDir l st = .ok (runTraceAux fileAt homeDir l st) := by
  intro l
  induction l with
  | nil => intro st _; rfl
  | cons p rest ih =>
    intro st hok
    have hp := hok p (List.mem_cons_self p rest)
    have hok' := fun q hq => hok q (List.mem_cons_of_mem p hq)
    cases hc : fileAt p with
    | none => simp only [traceLoop, runTraceAux, hc]; exact ih st hok'
    | some file =>
      cases file with
      | malformed => exact absurd hc hp
      | parsed y =>
        simp only [traceLoop, runTraceAux, hc]
        exact ih (traceFile homeDir st p y) hok'

theorem runTrace_proj (fileAt : GoStr → Option ConfigFile) (homeDir : Option GoStr)
    (proj : TraceState → TraceEntry) (mf : YamlDoc → Option GoStr)
    (hcomm : ∀ st p y, proj (traceFile homeDir st p y) = stepEntry (proj st) (mf y) p) :
    ∀ (l : List GoStr) (st : TraceState),
      proj (runTraceAux fileAt homeDir l st)
        = entryFold (mentionAt fileAt mf) (proj st) l := by
  intro l
  induction l with
  | nil => intro st; rfl
  | cons p rest ih =>
    intro st
    cases hc : fileAt p with
    | none =>
      have hm : mentionAt fileAt mf p = none := by simp [mentionAt, hc]
      simp only [runTraceAux, hc, entryFold, ih, hm, stepEntry]
    | some file =>
      cases file with
      | malformed =>
        have hm : mentionAt fileAt mf p = none := by simp [mentionAt, hc]
        simp only [runTraceAux, hc, entryFold, ih, hm, stepEntry]
      | parsed y =>
        have hm : mentionAt fileAt mf p = mf y := by simp [mentionAt, hc]
        simp only [runTraceAux, hc, entryFold, ih, hm, hcomm st p y]

/-- Per-field projection of the whole trace walk from the default state. -/
theorem trace_field_firstSeen (fileAt : GoStr → Option ConfigFile)
    (homeDir : Option GoStr) (proj : TraceState → TraceEntry)
    (mf : YamlDoc → Option GoStr) (d : GoStr)
    (hcomm : ∀ st p y, proj (traceFile homeDir st p y) = stepEntry (proj st) (mf y) p)
    (hinit : proj initTraceState = ⟨d, gs "default"⟩)
    (l : List GoStr) (hnd : ∀ p ∈ l, p ≠ gs "default") :
    proj (runTraceAux fileAt homeDir l initTraceState)
      = firstSeen (mentionAt fileAt mf) d l := by
  rw [runTrace_proj fileAt homeDir proj mf hcomm l initTraceState, hinit,
    entryFold_from_default (mentionAt fileAt mf) d l hnd]

/-- C3 (amended): `DisplayConfig` processes every file in the search path in
order and assigns each recognized field's value and source from the first
file that explicitly mentions that field (per-field first-seen precedence),
where for `backup_dir_path` only a file supplying a non-empty value counts as
mentioning it and the recorded value is home-expanded; in particular, for
search order a.yml : b.yml where a.yml sets only `backup_dir_path` and b.yml
sets both keys, the trace attributes `use_current_dir_name` to b.yml while
`Load` leaves it at its default. -/
theorem displayConfig_per_field_first_seen
    (searchPaths : List GoStr) (fileAt : GoStr → Option ConfigFile)
    (homeDir : Option GoStr)
    (hok : ∀ q ∈ searchPaths, fileAt q ≠ some .malformed)
    (hnd : ∀ q ∈ searchPaths, q ≠ gs "default") :
    DisplayConfig searchPaths fileAt homeDir
      = .ok (traceStateToList
        { backup_dir_path := firstSeen (mentionAt fileAt (traceMentionBdp homeDir))
            DefaultConfig.backupDirPath searchPaths
          status_config_error :=
            firstSeen (mentionAt fileAt (traceMentionStatus (·.status_config_error)))
              (intStr DefaultConfig.statusConfigError) searchPaths
          status_created_backup :=
            firstSeen (mentionAt fileAt (traceMentionStatus (·.status_created_backup)))
              (intStr DefaultConfig.statusCreatedBackup) searchPaths
          status_disk_full :=
            firstSeen (mentionAt fileAt (traceMentionStatus (·.status_disk_full)))
              (intStr DefaultConfig.statusDiskFull) searchPaths
          status_failed_to_create_backup_directory :=
            firstSeen (mentionAt fileAt
                (traceMentionStatus (·.status_failed_to_create_backup_directory)))
              (intStr DefaultConfig.statusFailedToCreateBackupDirectory) searchPaths
          status_file_is_identical_to_existing_backup :=
            firstSeen (mentionAt fileAt
                (traceMentionStatus (·.status_file_is_identical_to_existing_backup)))
              (intStr DefaultConfig.statusFileIsIdenticalToExistingBackup) searchPaths
          status_file_not_found :=
            firstSeen (mentionAt fileAt (traceMentionStatus (·.status_file_not_found)))
              (intStr DefaultConfig.statusFileNotFound) searchPaths
          status_invalid_file_type :=
            firstSeen (mentionAt fileAt (traceMentionStatus (·.status_invalid_file_type)))
              (intStr DefaultConfig.statusInvalidFileType) searchPaths
          status_permission_denied :=
            firstSeen (mentionAt fileAt (traceMentionStatus (·.status_permission_denied)))
              (intStr DefaultConfig.statusPermissionDenied) searchPaths
          use_current_dir_name := firstSeen (mentionAt fileAt traceMentionUcdn)
            (boolStr DefaultConfig.useCurrentDirName) searchPaths })
    ∧ DisplayConfig [gs "a.yml", gs "b.yml"]
        (fun q => if q = gs "a.yml" then
            some (.parsed ⟨some (gs "/x"), none, none, none, none, none, none, none, none, none⟩)
          else if q = gs "b.yml" then
            some (.parsed ⟨some (gs "/y"), some false, none, none, none, none, none, none,
              none, none⟩)
          else none) none
      = .ok [⟨gs "backup_dir_path", gs "/x", gs "a.yml"⟩,
             ⟨gs "status_config_error", gs "10", gs "default"⟩,
             ⟨gs "status_created_backup", gs "0", gs "default"⟩,
             ⟨gs "status_disk_full", gs "30", gs "default"⟩,
             ⟨gs "status_failed_to_create_backup_directory", gs "31", gs "default"⟩,
             ⟨gs "status_file_is_identical_to_existing_backup", gs "0", gs "default"⟩,
             ⟨gs "status_file_not_found", gs "20", gs "default"⟩,
             ⟨gs "status_invalid_file_type", gs "21", gs "default"⟩,
             ⟨gs "status_permission_denied", gs "22", gs "default"⟩,
             ⟨gs "use_current_dir_name", gs "false", gs "b.yml"⟩]
    ∧ LoadConfig [gs "a.yml", gs "b.yml"]
        (fun q => if q = gs "a.yml" then
            some (.parsed ⟨some (gs "/x"), none, none, none, none, none, none, none, none, none⟩)
          else if q = gs "b.yml" then
            some (.parsed ⟨some (gs "/y"), some false, none, none, none, none, none, none,
              none, none⟩)
          else none) none none
      = .ok (applyYaml none DefaultConfig
          ⟨some (gs "/x"), none, none, none, none, none, none, none, none, none⟩)
    ∧ (applyYaml none DefaultConfig
        ⟨some (gs "/x"), none, none, none, none, none, none, none, none, none⟩).useCurrentDirName
      = DefaultConfig.useCurrentDirName := by
  refine ⟨?_, rfl, rfl, rfl⟩
  have hbdp := trace_field_firstSeen fileAt homeDir (fun st => st.backup_dir_path)
    (traceMentionBdp homeDir) DefaultConfig.backupDirPath
    (fun _ _ _ => rfl) rfl searchPaths hnd
  have hsce := trace_field_firstSeen fileAt homeDir (fun st => st.status_config_error)
    (traceMentionStatus (·.status_config_error)) (intStr DefaultConfig.statusConfigError)
    (fun _ _ _ => rfl) rfl searchPaths hnd
  have hscb := trace_field_firstSeen fileAt homeDir (fun st => st.status_created_backup)
    (traceMentionStatus (·.status_created_backup)) (intStr DefaultConfig.statusCreatedBackup)
    (fun _ _ _ => rfl) rfl searchPaths hnd
  have hsdf := trace_field_firstSeen fileAt homeDir (fun st => st.status_disk_full)
    (traceMentionStatus (·.status_disk_full)) (intStr DefaultConfig.statusDiskFull)
    (fun _ _ _ => rfl) rfl searchPaths hnd
  have hsfd := trace_field_firstSeen fileAt homeDir
    (fun st => st.status_failed_to_create_backup_directory)
    (traceMentionStatus (·.status_failed_to_create_backup_directory))
    (intStr DefaultConfig.statusFailedToCreateBackupDirectory)
    (fun _ _ _ => rfl) rfl searchPaths hnd
  have hsfi := trace_field_firstSeen fileAt homeDir
    (fun st => st.status_file_is_identical_to_existing_backup)
    (traceMentionStatus (·.status_file_is_identical_to_existing_backup))
    (intStr DefaultConfig.statusFileIsIdenticalToExistingBackup)
    (fun _ _ _ => rfl) rfl searchPaths hnd
  have hsfn := trace_field_firstSeen fileAt homeDir (fun st => st.status_file_not_found)
    (traceMentionStatus (·.status_file_not_found)) (intStr DefaultConfig.statusFileNotFound)
    (fun _ _ _ => rfl) rfl searchPaths hnd
  have hsit := trace_field_firstSeen fileAt homeDir (fun st => st.status_invalid_file_type)
    (traceMentionStatus (·.status_invalid_file_type)) (intStr DefaultConfig.statusInvalidFileType)
    (fun _ _ _ => rfl) rfl searchPaths hnd
  have hspd := trace_field_firstSeen fileAt homeDir (fun st => st.status_permission_denied)
    (traceMentionStatus (·.status_permission_denied)) (intStr DefaultConfig.statusPermissionDenied)
    (fun _ _ _ => rfl) rfl searchPaths hnd
  have hucd := trace_field_firstSeen fileAt homeDir (fun st => st.use_current_dir_name)
    traceMentionUcdn (boolStr DefaultConfig.useCurrentDirName)
    (fun _ _ _ => rfl) rfl searchPaths hnd
  have hstate : runTraceAux fileAt homeDir searchPaths initTraceState
      = { backup_dir_path := firstSeen (mentionAt fileAt (traceMentionBdp homeDir))
            DefaultConfig.backupDirPath searchPaths
          status_config_error :=
            firstSeen (mentionAt fileAt (traceMentionStatus (·.status_config_error)))
              (intStr DefaultConfig.statusConfigError) searchPaths
          status_created_backup :=
            firstSeen (mentionAt fileAt (traceMentionStatus (·.status_created_backup)))
              (intStr DefaultConfig.statusCreatedBackup) searchPaths
          status_disk_full :=
            firstSeen (mentionAt fileAt (traceMentionStatus (·.status_disk_full)))
              (intStr DefaultConfig.statusDiskFull) searchPaths
          status_failed_to_create_backup_directory :=
            firstSeen (mentionAt fileAt
                (traceMentionStatus (·.status_failed_to_create_backup_directory)))
              (intStr DefaultConfig.statusFailedToCreateBackupDirectory) searchPaths
          status_file_is_identical_to_existing_backup :=
            firstSeen (mentionAt fileAt
                (traceMentionStatus (·.status_file_is_identical_to_existing_backup)))
              (intStr DefaultConfig.statusFileIsIdenticalToExistingBackup) searchPaths
          status_file_not_found :=
            firstSeen (mentionAt fileAt (traceMentionStatus (·.status_file_not_found)))
              (intStr DefaultConfig.statusFileNotFound) searchPaths
          status_invalid_file_type :=
            firstSeen (mentionAt fileAt (traceMentionStatus (·.status_invalid_file_type)))
              (intStr DefaultConfig.statusInvalidFileType) searchPaths
          status_permission_denied :=
            firstSeen (mentionAt fileAt (traceMentionStatus (·.status_permission_denied)))
              (intStr DefaultConfig.statusPermissionDenied) searchPaths
          use_current_dir_name := firstSeen (mentionAt fileAt traceMentionUcdn)
            (boolStr DefaultConfig.useCurrentDirName) searchPaths } := by
    calc runTraceAux fileAt homeDir searchPaths initTraceState
        = { backup_dir_path := (runTraceAux fileAt homeDir searchPaths initTraceState).backup_dir_path
            status_config_error :=
              (runTraceAux fileAt homeDir searchPaths initTraceState).status_config_error
            status_created_backup :=
              (runTraceAux fileAt homeDir searchPaths initTraceState).status_created_backup
            status_disk_full :=
              (runTraceAux fileAt homeDir searchPaths initTraceState).status_disk_full
            status_failed_to_create_backup_directory :=
              (runTraceAux fileAt homeDir searchPaths
                initTraceState).status_failed_to_create_backup_directory
            status_file_is_identical_to_existing_backup :=
              (runTraceAux fileAt homeDir searchPaths
                initTraceState).status_file_is_identical_to_existing_backup
            status_file_not_found :=
              (runTraceAux fileAt homeDir searchPaths initTraceState).status_file_not_found
            status_invalid_file_type :=
              (runTraceAux fileAt homeDir searchPaths initTraceState).status_invalid_file_type
            status_permission_denied :=
              (runTraceAux fileAt homeDir searchPaths initTraceState).status_permission_denied
            use_current_dir_name :=
              (runTraceAux fileAt homeDir searchPaths initTraceState).use_current_dir_name } := rfl
      _ = _ := by simp only [hbdp, hsce, hscb, hsdf, hsfd, hsfi, hsfn, hsit, hspd, hucd]
  unfold DisplayConfig
  rw [traceLoop_eq_run fileAt homeDir searchPaths initTraceState hok, hstate]
  rfl

/-- C3 counterexample: a.yml's raw map contains `backup_dir_path` (with an
explicit empty-string value), so a.yml is the first file that explicitly
mentions the field, yet the trace attributes value and source to b.yml. -/
theorem displayConfig_present_key_not_first_attributed :
    DisplayConfig [gs "a.yml", gs "b.yml"]
      (fun q => if q = gs "a.yml" then
          some (.parsed ⟨some [], none, none, none, none, none, none, none, none, none⟩)
        else if q = gs "b.yml" then
          some (.parsed ⟨some (gs "/y"), none, none, none, none, none, none, none, none, none⟩)
        else none) none
      = .ok [⟨gs "backup_dir_path", gs "/y", gs "b.yml"⟩,
             ⟨gs "status_config_error", gs "10", gs "default"⟩,
             ⟨gs "status_created_backup", gs "0", gs "default"⟩,
             ⟨gs "status_disk_full", gs "30", gs "default"⟩,
             ⟨gs "status_failed_to_create_backup_directory", gs "31", gs "default"⟩,
             ⟨gs "status_file_is_identical_to_existing_backup", gs "0", gs "default"⟩,
             ⟨gs "status_file_not_found", gs "20", gs "default"⟩,
             ⟨gs "status_invalid_file_type", gs "21", gs "default"⟩,
             ⟨gs "status_permission_denied", gs "22", gs "default"⟩,
             ⟨gs "use_current_dir_name", gs "true", gs "default"⟩]
    ∧ gs "b.yml" ≠ gs "a.yml" :=
  ⟨rfl, by decide⟩

/-- Witness for C3 on the empty search path: every field stays default. -/
theorem displayConfig_per_field_first_seen_witness :
    DisplayConfig [] (fun _ => none) none = .ok (traceStateToList initTraceState) :=
  (displayConfig_per_field_first_seen [] (fun _ => none) none (by simp) (by simp)).1

theorem strStartsWith_append (x r : GoStr) : strStartsWith (x ++ r) x = true := by
  induction x with
  | nil => cases r <;> rfl
  | cons a as ih => simp [strStartsWith, ih]

theorem lastIndexOfAux_eq_none (c : Char) (B : GoStr) (h : c ∉ B) :
    lastIndexOfAux c B = none := by
  induction B with
  | nil => rfl
  | cons b bs ih =>
    have hb : ¬(b = c) := fun hbc => h (hbc ▸ List.mem_cons_self b bs)
    have hbs : c ∉ bs := fun hm => h (List.mem_cons_of_mem b hm)
    simp [lastIndexOfAux, ih hbs, hb]

theorem lastIndexOfAux_append (c : Char) (A B : GoStr) (h : c ∉ B) :
    lastIndexOfAux c (A ++ c :: B) = some A.length := by
  induction A with
  | nil => simp [lastIndexOfAux, lastIndexOfAux_eq_none c B h]
  | cons a as ih => simp [lastIndexOfAux, ih]

theorem extractNote_append (A B : GoStr) (hA : A ≠ [])
    (h : Char.ofNat 61 ∉ B) : extractNote (A ++ Char.ofNat 61 :: B) = B := by
  unfold extractNote lastIndexOf
  rw [lastIndexOfAux_append (Char.ofNat 61) A B h]
  have hlen : 0 < A.length := List.length_pos.mpr hA
  show (if 0 < A.length then (A ++ Char.ofNat 61 :: B).drop (A.length + 1) else []) = B
  rw [if_pos hlen]
  have : A ++ Char.ofNat 61 :: B = (A ++ [Char.ofNat 61]) ++ B := by simp
  rw [this]
  have hl : (A ++ [Char.ofNat 61]).length = A.length + 1 := by simp
  rw [← hl, List.drop_left]

theorem filterMap_if_eq {α β : Type} (f : α → β) (p : α → Bool) (l : List α) :
    (l.filterMap fun a => if p a then some (f a) else none) = (l.filter p).map f := by
  induction l with
  | nil => rfl
  | cons a as ih =>
    cases hp : p a <;> simp [List.filterMap_cons, List.filter_cons, hp, ih]

theorem find?_filter_of_imp {α : Type} (p q : α → Bool) (l : List α)
    (himp : ∀ a, p a = true → q a = true) :
    (l.filter q).find? p = l.find? p := by
  induction l with
  | nil => rfl
  | cons a as ih =>
    cases hp : p a with
    | true =>
      have hq := himp a hp
      simp [List.filter_cons, hq, List.find?_cons, hp]
    | false =>
      cases hq : q a <;> simp [List.filter_cons, hq, List.find?_cons, hp, ih]

theorem self_mem_pathAncestors (p : FPath) : p ∈ pathAncestors p := by
  induction p with
  | nil => simp [pathAncestors]
  | cons a rest ih =>
    simp only [pathAncestors, List.mem_cons]
    exact Or.inr (List.mem_map.mpr ⟨rest, ih, rfl⟩)

theorem left_mem_pathAncestors (A B : FPath) : A ∈ pathAncestors (A ++ B) := by
  induction A with
  | nil =>
    cases B with
    | nil => simp [pathAncestors]
    | cons b bs => simp [pathAncestors]
  | cons a as ih =>
    simp only [List.cons_append, pathAncestors, List.mem_cons]
    exact Or.inr (List.mem_map.mpr ⟨as, ih, rfl⟩)

theorem generateBackupName_startsWith (f s n : GoStr) :
    strStartsWith (GenerateBackupName f s n) (f ++ [Char.ofNat 45]) = true := by
  unfold GenerateBackupName
  by_cases hn : n = []
  · rw [if_pos hn]
    have : f ++ Char.ofNat 45 :: s = (f ++ [Char.ofNat 45]) ++ s := by simp
    rw [this]
    exact strStartsWith_append _ s
  · rw [if_neg hn]
    have : (f ++ Char.ofNat 45 :: s) ++ Char.ofNat 61 :: n
        = (f ++ [Char.ofNat 45]) ++ (s ++ Char.ofNat 61 :: n) := by simp
    rw [this]
    exact strStartsWith_append _ _

theorem generateBackupName_length (f s n : GoStr) :
    f.length < (GenerateBackupName f s n).length := by
  unfold GenerateBackupName
  by_cases hn : n = [] <;> simp [hn]

theorem generateBackupName_ne (f s n : GoStr) : GenerateBackupName f s n ≠ f := by
  intro h
  have := generateBackupName_length f s n
  rw [h] at this
  omega

/-- Directory entries of the per-file backup subdirectory whose names pass
the `filename + "-"` filter of `ListBackups`. -/
def matchingEntries (fs : FSState) (backupDir : FPath) (sourceFile : FPath) :
    List (GoStr × FileData) :=
  (entriesIn fs (backupDir ++ sourceFile.dropLast)).filter
    fun e => strStartsWith e.1 (baseName sourceFile ++ [Char.ofNat 45])

theorem listBackups_eval (fs : FSState) (backupDir sourceFile : FPath)
    (hroot : pathExists fs backupDir)
    (hsub : pathExists fs (backupDir ++ sourceFile.dropLast)) :
    ListBackups fs backupDir sourceFile
      = .ok (sortBackups ((matchingEntries fs backupDir sourceFile).map fun e =>
          { name := e.1
            path := backupDir ++ sourceFile.dropLast ++ [e.1]
            creationTime := e.2.mtime
            sourceFile := sourceFile
            note := extractNote e.1 : Backup })) := by
  unfold ListBackups
  rw [if_neg (not_not_intro hroot), if_neg (not_not_intro hsub)]
  rw [matchingEntries, filterMap_if_eq]

theorem listBackups_of_no_matching (fs : FSState) (backupDir sourceFile : FPath)
    (hclean : matchingEntries fs backupDir sourceFile = []) :
    ListBackups fs backupDir sourceFile = .ok [] := by
  by_cases hroot : pathExists fs backupDir
  · by_cases hsub : pathExists fs (backupDir ++ sourceFile.dropLast)
    · rw [listBackups_eval fs backupDir sourceFile hroot hsub, hclean]
      rfl
    · exact (listBackups_missing_root_empty fs backupDir sourceFile).2 hsub
  · exact (listBackups_missing_root_empty fs backupDir sourceFile).1 hroot

theorem createBackup_fresh (cfg : Config) (fs : FSState) (filePath : FPath)
    (noteArg : GoStr) (now : Nat) (fd : FileData)
    (hfd : lookupFile fs filePath = some fd)
    (hlist : ListBackups fs (splitPath cfg.backupDirPath) filePath = .ok []) :
    CreateBackup cfg fs ⟨none, none, none⟩ filePath noteArg false now
      = (writeFile (mkdirAll fs (splitPath cfg.backupDirPath ++ filePath.dropLast))
          (splitPath cfg.backupDirPath ++ filePath.dropLast
            ++ [GenerateBackupName (baseName filePath) (minuteStamp now) noteArg])
          ⟨fd.content, fd.mtime⟩,
         some ⟨gs "backup created successfully", cfg.statusCreatedBackup⟩) := by
  simp only [CreateBackup, hfd, hlist]
  rfl

theorem createBackup_identical (cfg : Config) (fs : FSState) (mkE cpE : Option OsError)
    (filePath : FPath) (noteArg : GoStr) (dryRun : Bool) (now : Nat)
    (fd bd : FileData) (mostRecent : Backup) (others : List Backup)
    (hfd : lookupFile fs filePath = some fd)
    (hlist : ListBackups fs (splitPath cfg.backupDirPath) filePath
      = .ok (mostRecent :: others))
    (hbd : lookupFile fs mostRecent.path = some bd)
    (heq : bd.content = fd.content) :
    CreateBackup cfg fs ⟨none, mkE, cpE⟩ filePath noteArg dryRun now
      = (fs, some ⟨gs "file is identical to existing backup",
          cfg.statusFileIsIdenticalToExistingBackup⟩) := by
  have hcmp : CompareFiles fd.content bd.content = true := by
    rw [heq]
    exact CompareFiles_refl fd.content
  simp only [CreateBackup, hfd, hlist, hbd, hcmp]
  rfl

theorem createBackup_then_list (cfg : Config) (fs : FSState) (filePath : FPath)
    (noteArg : GoStr) (now : Nat) (fd : FileData)
    (hfd : lookupFile fs filePath = some fd)
    (hne : filePath ≠ [])
    (hclean : matchingEntries fs (splitPath cfg.backupDirPath) filePath = []) :
    CreateBackup cfg fs ⟨none, none, none⟩ filePath noteArg false now
      = (writeFile (mkdirAll fs (splitPath cfg.backupDirPath ++ filePath.dropLast))
          (splitPath cfg.backupDirPath ++ filePath.dropLast
            ++ [GenerateBackupName (baseName filePath) (minuteStamp now) noteArg])
          ⟨fd.content, fd.mtime⟩,
         some ⟨gs "backup created successfully", cfg.statusCreatedBackup⟩)
    ∧ ListBackups
        (writeFile (mkdirAll fs (splitPath cfg.backupDirPath ++ filePath.dropLast))
          (splitPath cfg.backupDirPath ++ filePath.dropLast
            ++ [GenerateBackupName (baseName filePath) (minuteStamp now) noteArg])
          ⟨fd.content, fd.mtime⟩)
        (splitPath cfg.backupDirPath) filePath
      = .ok [{ name := GenerateBackupName (baseName filePath) (minuteStamp now) noteArg
               path := splitPath cfg.backupDirPath ++ filePath.dropLast
                 ++ [GenerateBackupName (baseName filePath) (minuteStamp now) noteArg]
               creationTime := fd.mtime
               sourceFile := filePath
               note := extractNote
                 (GenerateBackupName (baseName filePath) (minuteStamp now) noteArg) }]
    ∧ lookupFile
        (writeFile (mkdirAll fs (splitPath cfg.backupDirPath ++ filePath.dropLast))
          (splitPath cfg.backupDirPath ++ filePath.dropLast
            ++ [GenerateBackupName (baseName filePath) (minuteStamp now) noteArg])
          ⟨fd.content, fd.mtime⟩)
        filePath = some fd
    ∧ lookupFile
        (writeFile (mkdirAll fs (splitPath cfg.backupDirPath ++ filePath.dropLast))
          (splitPath cfg.backupDirPath ++ filePath.dropLast
            ++ [GenerateBackupName (baseName filePath) (minuteStamp now) noteArg])
          ⟨fd.content, fd.mtime⟩)
        (splitPath cfg.backupDirPath ++ filePath.dropLast
          ++ [GenerateBackupName (baseName filePath) (minuteStamp now) noteArg])
      = some ⟨fd.content, fd.mtime⟩ := by
  set bdir := splitPath cfg.backupDirPath with hbdir
  set dir := filePath.dropLast with hdirdef
  set filename := baseName filePath with hfndef
  set bName := GenerateBackupName filename (minuteStamp now) noteArg with hbname
  set subDir := bdir ++ dir with hsubdef
  set bPath := subDir ++ [bName] with hbpath
  set fdN : FileData := ⟨fd.content, fd.mtime⟩ with hfdN
  set fs₂ := writeFile (mkdirAll fs subDir) bPath fdN with hfs₂
  have hlist0 : ListBackups fs bdir filePath = .ok [] :=
    listBackups_of_no_matching fs bdir filePath hclean
  have hrun := createBackup_fresh cfg fs filePath noteArg now fd hfd hlist0
  have hneqPath : bPath ≠ filePath := by
    intro h
    have hlast : filePath.getLast? = some bName := by
      rw [← h, hbpath]
      exact List.getLast?_concat _
    have hfn : filename = bName := by
      rw [hfndef]
      unfold baseName
      rw [hlast]
      rfl
    exact generateBackupName_ne filename (minuteStamp now) noteArg hfn.symm
  have hfiles₂ : fs₂.files = (bPath, fdN) :: fs.files.filter (fun q => decide (q.1 ≠ bPath)) := rfl
  have hdirs₂ : fs₂.dirs = pathAncestors subDir ++ fs.dirs := rfl
  have hroot₂ : pathExists fs₂ bdir := by
    right
    rw [hdirs₂]
    exact List.mem_append_left _ (left_mem_pathAncestors bdir dir)
  have hsub₂ : pathExists fs₂ subDir := by
    right
    rw [hdirs₂]
    exact List.mem_append_left _ (self_mem_pathAncestors subDir)
  have hent : entriesIn fs₂ subDir
      = (bName, fdN) :: (fs.files.filter (fun q => decide (q.1 ≠ bPath))).filterMap
          (fun q => match q.1.getLast? with
            | none => none
            | some n => if q.1.dropLast = subDir then some (n, q.2) else none) := by
    unfold entriesIn
    rw [hfiles₂, List.filterMap_cons]
    have hg : (match bPath.getLast? with
        | none => none
        | some n => if bPath.dropLast = subDir then some (n, fdN) else none)
        = some (bName, fdN) := by
      rw [hbpath, List.getLast?_concat]
      show (if (subDir ++ [bName]).dropLast = subDir then some (bName, fdN) else none)
        = some (bName, fdN)
      rw [List.dropLast_concat]
      simp
    rw [hg]
  have hrest : ((fs.files.filter (fun q => decide (q.1 ≠ bPath))).filterMap
        (fun q => match q.1.getLast? with
          | none => none
          | some n => if q.1.dropLast = subDir then some (n, q.2) else none)).filter
      (fun e => strStartsWith e.1 (filename ++ [Char.ofNat 45])) = [] := by
    have hsub1 : List.Sublist (fs.files.filter (fun q => decide (q.1 ≠ bPath))) fs.files :=
      List.filter_sublist fs.files
    have hsub2 := hsub1.filterMap
      (fun q : FPath × FileData => match q.1.getLast? with
        | none => none
        | some n => if q.1.dropLast = subDir then some (n, q.2) else none)
    have hsub3 := hsub2.filter (fun e => strStartsWith e.1 (filename ++ [Char.ofNat 45]))
    have hfin : (entriesIn fs subDir).filter
        (fun e => strStartsWith e.1 (filename ++ [Char.ofNat 45])) = [] := hclean
    rw [entriesIn] at hfin
    rw [hfin] at hsub3
    exact List.sublist_nil.mp hsub3
  have hmatch₂ : matchingEntries fs₂ bdir filePath = [(bName, fdN)] := by
    unfold matchingEntries
    rw [← hsubdef, ← hfndef, hent, List.filter_cons]
    rw [show strStartsWith bName (filename ++ [Char.ofNat 45]) = true from
      generateBackupName_startsWith filename (minuteStamp now) noteArg]
    simp only [if_true, hrest]
  refine ⟨hrun, ?_, ?_, ?_⟩
  · rw [listBackups_eval fs₂ bdir filePath hroot₂ hsub₂, ← hsubdef, hmatch₂]
    rfl
  · unfold lookupFile
    rw [hfiles₂, List.find?_cons]
    rw [show (decide (bPath = filePath)) = false from decide_eq_false hneqPath]
    rw [find?_filter_of_imp _ _ fs.files
      (by
        intro a ha
        have : a.1 = filePath := of_decide_eq_true ha
        exact decide_eq_true (fun hc => hneqPath (by rw [← this, hc])))]
    exact hfd
  · unfold lookupFile
    rw [hfiles₂, List.find?_cons]
    rw [show (decide (bPath = bPath)) = true from decide_eq_true rfl]
    rfl

/-- C1: when the target's byte content is identical to its most recent
existing backup, `CreateBackup` returns the identical outcome
(`StatusFileIsIdenticalToExistingBackup`) and leaves the filesystem
untouched, for every note argument; consequently, backing up a file twice
with unchanged content leaves exactly one backup file — the second attempt
yields the identical outcome and performs no write. -/
theorem createBackup_identical_no_second_backup :
    (∀ (cfg : Config) (fs : FSState) (mkE cpE : Option OsError) (filePath : FPath)
        (noteArg : GoStr) (dryRun : Bool) (now : Nat) (fd bd : FileData)
        (mostRecent : Backup) (others : List Backup),
        lookupFile fs filePath = some fd →
        ListBackups fs (splitPath cfg.backupDirPath) filePath = .ok (mostRecent :: others) →
        lookupFile fs mostRecent.path = some bd →
        bd.content = fd.content →
        CreateBackup cfg fs ⟨none, mkE, cpE⟩ filePath noteArg dryRun now
          = (fs, some ⟨gs "file is identical to existing backup",
              cfg.statusFileIsIdenticalToExistingBackup⟩))
    ∧ (∀ (cfg : Config) (fs : FSState) (filePath : FPath) (note₁ note₂ : GoStr)
        (now₁ now₂ : Nat) (fd : FileData),
        lookupFile fs filePath = some fd →
        filePath ≠ [] →
        matchingEntries fs (splitPath cfg.backupDirPath) filePath = [] →
        CreateBackup cfg
            (CreateBackup cfg fs ⟨none, none, none⟩ filePath note₁ false now₁).1
            ⟨none, none, none⟩ filePath note₂ false now₂
          = ((CreateBackup cfg fs ⟨none, none, none⟩ filePath note₁ false now₁).1,
             some ⟨gs "file is identical to existing backup",
               cfg.statusFileIsIdenticalToExistingBackup⟩)
        ∧ (ListBackups (CreateBackup cfg fs ⟨none, none, none⟩ filePath note₁ false now₁).1
            (splitPath cfg.backupDirPath) filePath).map List.length = .ok 1) := by
  constructor
  · intro cfg fs mkE cpE filePath noteArg dryRun now fd bd mostRecent others
      hfd hlist hbd heq
    exact createBackup_identical cfg fs mkE cpE filePath noteArg dryRun now fd bd
      mostRecent others hfd hlist hbd heq
  · intro cfg fs filePath note₁ note₂ now₁ now₂ fd hfd hne hclean
    obtain ⟨hrun, hlb, hlkp, hlkb⟩ :=
      createBackup_then_list cfg fs filePath note₁ now₁ fd hfd hne hclean
    rw [hrun]
    constructor
    · exact createBackup_identical cfg _ none none filePath note₂ false now₂ fd
        ⟨fd.content, fd.mtime⟩ _ [] hlkp hlb hlkb rfl
    · rw [hlb]
      rfl

/-- Witness for C1: a filesystem holding one backup with the same content as
the source; a second backup attempt with a different note changes nothing. -/
theorem createBackup_identical_no_second_backup_witness :
    CreateBackup { DefaultConfig with backupDirPath := gs "bk" }
        ⟨[([gs "f.txt"], ⟨[7], 3⟩), ([gs "bk", gs "f.txt-1"], ⟨[7], 3⟩)], [[gs "bk"]]⟩
        ⟨none, none, none⟩ [gs "f.txt"] (gs "another note") false 9
      = (⟨[([gs "f.txt"], ⟨[7], 3⟩), ([gs "bk", gs "f.txt-1"], ⟨[7], 3⟩)], [[gs "bk"]]⟩,
         some ⟨gs "file is identical to existing backup",
           ({ DefaultConfig with backupDirPath := gs "bk" } : Config).statusFileIsIdenticalToExistingBackup⟩) :=
  createBackup_identical_no_second_backup.1
    { DefaultConfig with backupDirPath := gs "bk" }
    ⟨[([gs "f.txt"], ⟨[7], 3⟩), ([gs "bk", gs "f.txt-1"], ⟨[7], 3⟩)], [[gs "bk"]]⟩
    none none [gs "f.txt"] (gs "another note") false 9 ⟨[7], 3⟩ ⟨[7], 3⟩
    ⟨gs "f.txt-1", [gs "bk", gs "f.txt-1"], 3, [gs "f.txt"], []⟩ []
    rfl rfl rfl rfl

/-- C5 counterexample: with note "a=b" at injected minute 200 on a source
file whose modification time is 100, the listed entry's note is "b"
(everything after the LAST '=', which here falls inside the note) and its
creationTime is 100 — the source's mtime that CopyFile stamps onto the
backup — not the minute 200 of the injected now(). -/
theorem backup_note_roundtrip_cex :
    ListBackups
        (CreateBackup { DefaultConfig with backupDirPath := gs "bk" }
          ⟨[([gs "f.txt"], ⟨[1, 2], 100⟩)], []⟩ ⟨none, none, none⟩
          [gs "f.txt"] (gs "a=b") false 200).1
        (splitPath (gs "bk")) [gs "f.txt"]
      = .ok [{ name := gs "f.txt-200=a=b"
               path := [gs "bk", gs "f.txt-200=a=b"]
               creationTime := 100
               sourceFile := [gs "f.txt"]
               note := gs "b" }]
    ∧ gs "b" ≠ gs "a=b"
    ∧ (100 : Nat) ≠ 200 :=
  ⟨rfl, by decide, by decide⟩

/-- C5 (amended): for every non-empty note containing no '=', creating a
backup with that note and then listing backups for the file yields exactly
one entry whose note equals the supplied note and whose creationTime equals
the source file's modification time (which `CopyFile` stamps onto the
backup; the backup NAME carries now()'s minute, the listed creationTime the
source mtime). -/
theorem backup_note_roundtrip (cfg : Config) (fs : FSState) (filePath : FPath)
    (noteArg : GoStr) (now : Nat) (fd : FileData)
    (hfd : lookupFile fs filePath = some fd)
    (hne : filePath ≠ [])
    (hclean : matchingEntries fs (splitPath cfg.backupDirPath) filePath = [])
    (hnn : noteArg ≠ [])
    (hnoeq : Char.ofNat 61 ∉ noteArg) :
    ListBackups (CreateBackup cfg fs ⟨none, none, none⟩ filePath noteArg false now).1
        (splitPath cfg.backupDirPath) filePath
      = .ok [{ name := GenerateBackupName (baseName filePath) (minuteStamp now) noteArg
               path := splitPath cfg.backupDirPath ++ filePath.dropLast
                 ++ [GenerateBackupName (baseName filePath) (minuteStamp now) noteArg]
               creationTime := fd.mtime
               sourceFile := filePath
               note := noteArg }] := by
  obtain ⟨hrun, hlb, _, _⟩ :=
    createBackup_then_list cfg fs filePath noteArg now fd hfd hne hclean
  have hnote : extractNote (GenerateBackupName (baseName filePath) (minuteStamp now) noteArg)
      = noteArg := by
    unfold GenerateBackupName
    rw [if_neg hnn]
    exact extractNote_append (baseName filePath ++ Char.ofNat 45 :: minuteStamp now) noteArg
      (by simp) hnoeq
  rw [hrun]
  rw [hnote] at hlb
  exact hlb

/-- Witness for C5: note "v1" at minute 5 on a fresh file round-trips. -/
theorem backup_note_roundtrip_witness :
    ListBackups
        (CreateBackup { DefaultConfig with backupDirPath := gs "bk" }
          ⟨[([gs "f.txt"], ⟨[7], 3⟩)], []⟩ ⟨none, none, none⟩
          [gs "f.txt"] (gs "v1") false 5).1
        (splitPath (gs "bk")) [gs "f.txt"]
      = .ok [{ name := GenerateBackupName (baseName [gs "f.txt"]) (minuteStamp 5) (gs "v1")
               path := splitPath (gs "bk") ++ ([gs "f.txt"] : FPath).dropLast
                 ++ [GenerateBackupName (baseName [gs "f.txt"]) (minuteStamp 5) (gs "v1")]
               creationTime := 3
               sourceFile := [gs "f.txt"]
               note := gs "v1" }] :=
  backup_note_roundtrip { DefaultConfig with backupDirPath := gs "bk" }
    ⟨[([gs "f.txt"], ⟨[7], 3⟩)], []⟩ [gs "f.txt"] (gs "v1") 5 ⟨[7], 3⟩
    rfl (by decide) rfl (by decide) (by decide)
